import Mathlib

/-
Shallow embedding of the rate-limit-aware HTTP dispatcher of pycord-v3
(src/pycord/internal/http/__init__.py, class HTTPClient).

The dispatcher's helpers `Route` (internal/http/route.py), `Block`
(internal/blocks.py), `File` (file.py) and `utils.dumps` /
`utils._text_or_json` (utils.py) are not part of the provided sources;
they are modelled from the specification where so marked.  Everything
else is translated directly from HTTPClient.request and
HTTPClient._prepare_form.

Concurrency is modelled sequentially: one logical request runs against a
scripted sequence of HTTP responses (one response per loop attempt), and
every externally visible action (waiting on a blocker, issuing the
network call, registering / arming / removing a blocker, closing a file)
is recorded as an event.  Registry snapshots are recorded at every
mutation of the blocker registry.
-/

namespace PycordHttp

/-- A JSON value, as produced by Python dict / list / str / int / bool /
None payloads handed to the dispatcher. -/
inductive Json where
  | null : Json
  | bool (b : Bool) : Json
  | num (n : Nat) : Json
  | str (s : String) : Json
  | arr (xs : List Json) : Json
  | obj (fields : List (String × Json)) : Json

/-- Escape one character for inclusion in a JSON string literal
(backslash and double quote; other escapes are not modelled). -/
def escapeChar (c : Char) : String :=
  if c = '\\' then "\\\\"
  else if c = '"' then "\\\""
  else String.singleton c

/-- Escape a string for inclusion in a JSON document. -/
def escapeJson (s : String) : String :=
  String.join (s.data.map escapeChar)

/-- Modelled from the spec: `utils.dumps` (utils.py is not in src/) is
the JSON serializer applied to request payloads ("JSON-serialize and set
content-type", §4.2 step 2; "JSON-serialized payload", §4.4). -/
def Json.dumps : Json → String
  | .null => "null"
  | .bool b => if b then "true" else "false"
  | .num n => toString n
  | .str s => "\"" ++ escapeJson s ++ "\""
  | .arr xs =>
      "[" ++ String.intercalate "," (xs.attach.map (fun x => Json.dumps x.1)) ++ "]"
  | .obj fs =>
      "\x7b" ++
        String.intercalate ","
          (fs.attach.map (fun f => "\"" ++ escapeJson f.1.1 ++ "\":" ++ Json.dumps f.1.2)) ++
      "\x7d"
decreasing_by
  · simp only [Json.arr.sizeOf_spec]
    have := List.sizeOf_lt_of_mem x.2
    omega
  · simp only [Json.obj.sizeOf_spec]
    have h1 := List.sizeOf_lt_of_mem f.2
    have h2 : sizeOf f.1.2 < sizeOf f.1 := by
      obtain ⟨a, b⟩ := f.1
      simp only [Prod.mk.sizeOf_spec]
      omega
    omega

/-- A Python `dict` with string keys, as an insertion-ordered
association list (CPython dicts preserve insertion order). -/
abbrev PyDict (α : Type) := List (String × α)

/-- Python `d[k] = v`: overwrite the entry holding the key (keeping its
position), otherwise append at the end. -/
def dictSet {α : Type} : PyDict α → String → α → PyDict α
  | [], k, v => [(k, v)]
  | p :: rest, k, v => if p.1 == k then (k, v) :: rest else p :: dictSet rest k v

/-- Python `d.get(k)` / `d[k]` lookup: the value stored under the
key, if any. -/
def dictLookup {α : Type} : PyDict α → String → Option α
  | [], _ => none
  | p :: rest, k => if p.1 == k then some p.2 else dictLookup rest k

/-- Python `del d[k]`: remove the entry holding the key. -/
def dictDel {α : Type} : PyDict α → String → PyDict α
  | [], _ => []
  | p :: rest, k => if p.1 == k then rest else p :: dictDel rest k

/-- Modelled from the spec: `Route` (internal/http/route.py is not in
src/).  "immutable value with `path_template` ... and optional
`guild_id`, `channel_id`, `webhook_id`, `webhook_token`.  `merge(base_url)`
substitutes placeholders and returns the fully-qualified URL" (§3,
§4.1).  `path` holds the path with placeholders already substituted;
the scoping identifiers are exposed as read-only fields. -/
structure Route where
  path : String
  guild_id : Option String := none
  channel_id : Option String := none
  webhook_id : Option String := none
  webhook_token : Option String := none
  deriving DecidableEq

/-- Modelled from the spec: `Route.merge(base)` "returns
`base + substituted_path`" (§4.1). -/
def Route.merge (r : Route) (base : String) : String :=
  base ++ r.path

/-- Modelled from the spec: `Block` (internal/blocks.py is not in
src/).  "Attributes: owning `route`, `bucket_denom` (server-assigned
bucket id, nullable until first response), `is_global` (bool)" (§3).
`Block(route)` constructs it with `bucket_denom = None` and not global;
`block(reset_after, bucket, globalrt)` records `bucket_denom = bucket`
and `is_global`, sleeps `reset_after`, then releases all waiters (§4.2).
The internal gate is modelled by the wait / block events of the
dispatcher trace. -/
structure Block where
  route : Route
  bucket_denom : Option String := none
  is_global : Bool := false
  deriving DecidableEq

/-- Modelled from the spec: `File` (file.py is not in src/): an
"attachment descriptor" with a `filename`, a `description` and a
retryable binary content source `fp` (§4.2 step 2, §4.4).  `fp` is an
opaque content-source identifier. -/
structure File where
  filename : String
  description : String
  fp : Nat
  deriving DecidableEq

/-- The value carried by one multipart form field: either serialized
text or a file's binary content source. -/
inductive FormValue where
  | text (s : String) : FormValue
  | fileContent (fp : Nat) : FormValue
  deriving DecidableEq

/-- One field of an `aiohttp.FormData`, as added by
`form_data.add_field(**f)`. -/
structure FormField where
  name : String
  value : FormValue
  filename : Option String := none
  content_type : Option String := none
  deriving DecidableEq

/-- An `aiohttp.FormData` body: the `quote_fields` construction flag and
the ordered list of added fields. -/
structure FormData where
  quote_fields : Bool
  fields : List FormField
  deriving DecidableEq

/-- The attachment-metadata entry `_prepare_form` appends for the file
at index `i`: `{"id": index, "filename": file.filename,
"description": file.description}`. -/
def attachmentEntry (i : Nat) (f : File) : Json :=
  Json.obj [("id", Json.num i), ("filename", Json.str f.filename),
    ("description", Json.str f.description)]

/-- The multipart field `_prepare_form` appends for the file at index
`i`: name `files[index]`, value the file's content source, its
filename, content type `application/octet-stream`. -/
def fileFieldAt (i : Nat) (f : File) : FormField :=
  { name := "files[" ++ toString i ++ "]",
    value := FormValue.fileContent f.fp,
    filename := some f.filename,
    content_type := some "application/octet-stream" }

/-- The attachment-metadata objects built by the `enumerate(files)` loop
of `_prepare_form`, starting at index `i`. -/
def attachmentsFrom (i : Nat) : List File → List Json
  | [] => []
  | f :: rest => attachmentEntry i f :: attachmentsFrom (i + 1) rest

/-- The `files[index]` form fields built by the `enumerate(files)` loop
of `_prepare_form`, starting at index `i`. -/
def formFileFields (i : Nat) : List File → List FormField
  | [] => []
  | f :: rest => fileFieldAt i f :: formFileFields (i + 1) rest

/-- `HTTPClient._prepare_form(files, payload)` (lines 149-176 of
internal/http/__init__.py), for a non-None `payload`.  Returns the
`FormData` together with the payload dict after the call — the source
executes `payload["attachments"] = attachments`, mutating the
caller-supplied dict, before serializing it into field 0
(`payload_json`); fields 1..N are the `files[i]` fields, and the
`FormData` is constructed with `quote_fields=False`. -/
def prepareForm (files : List File) (payload : PyDict Json) :
    FormData × PyDict Json :=
  let attachments := attachmentsFrom 0 files
  let fileFields := formFileFields 0 files
  let payload1 := dictSet payload "attachments" (Json.arr attachments)
  let form :=
    { name := "payload_json", value := FormValue.text (Json.dumps (Json.obj payload1)),
      filename := none, content_type := none } :: fileFields
  (⟨false, form⟩, payload1)

/-- One scripted HTTP response, as observed through aiohttp's response
object: its status, headers, the value `await r.json()` would produce
(none when the body is not JSON, in which case `r.json()` raises), and
the value `await r.text()` would produce. -/
structure Response where
  status : Nat
  headers : PyDict String := []
  jsonBody : Option Json := none
  textBody : String := ""

/-- The Python exceptions the dispatcher can raise: the typed API errors
of pycord.errors, plus the built-in exceptions reachable through its
header accesses and debug prints. -/
inductive PyError where
  | unauthorized : PyError
  | forbidden : PyError
  | notFound : PyError
  | httpException : PyError
  | keyError (key : String) : PyError
  | typeError : PyError
  | valueError : PyError
  | contentTypeError : PyError
  | attributeError : PyError
  deriving DecidableEq

/-- The ASCII whitespace characters `float()` strips from both ends. -/
def pyWs (c : Char) : Bool :=
  c = ' ' || c = '\t' || c = '\n' || c = '\r' || c = '\x0b' || c = '\x0c'

def dropLeadingWs : List Char → List Char
  | [] => []
  | c :: rest => if pyWs c then dropLeadingWs rest else c :: rest

/-- Strip leading and trailing whitespace. -/
def stripWs (l : List Char) : List Char :=
  (dropLeadingWs ((dropLeadingWs l).reverse)).reverse

/-- Drop one optional leading sign. -/
def dropSign : List Char → List Char
  | '+' :: rest => rest
  | '-' :: rest => rest
  | l => l

/-- The tail of a digit group: digits, with single underscores allowed
only between digits (Python's numeric-literal underscore rule). -/
def digitGroupRest : List Char → Bool
  | [] => true
  | '_' :: c :: rest => c.isDigit && digitGroupRest rest
  | c :: rest => c.isDigit && digitGroupRest rest

/-- A non-empty digit group starting with a digit. -/
def digitGroup : List Char → Bool
  | [] => false
  | c :: rest => c.isDigit && digitGroupRest rest

/-- Split at the first `e`/`E`, returning the mantissa part and, when an
exponent marker exists, the exponent part. -/
def splitAtExp : List Char → List Char × Option (List Char)
  | [] => ([], none)
  | c :: rest =>
      if c = 'e' || c = 'E' then ([], some rest)
      else
        let p := splitAtExp rest
        (c :: p.1, p.2)

/-- Split at the first `.`, returning the integer part and, when a dot
exists, the fractional part. -/
def splitAtDot : List Char → List Char × Option (List Char)
  | [] => ([], none)
  | c :: rest =>
      if c = '.' then ([], some rest)
      else
        let p := splitAtDot rest
        (c :: p.1, p.2)

/-- A mantissa: `digits`, `digits.`, `.digits` or `digits.digits`. -/
def acceptMantissa (l : List Char) : Bool :=
  let p := splitAtDot l
  match p.2 with
  | none => digitGroup p.1
  | some f =>
      if p.1.isEmpty then digitGroup f
      else if f.isEmpty then digitGroup p.1
      else digitGroup p.1 && digitGroup f

/-- Case-insensitive match against `inf`, `infinity` and `nan`. -/
def isInfNan (l : List Char) : Bool :=
  l.map Char.toLower == "inf".data
    || l.map Char.toLower == "infinity".data
    || l.map Char.toLower == "nan".data

/-- Modelled from CPython: whether `float(s)` succeeds — line 120 of
internal/http/__init__.py applies `float` to the
`X-RateLimit-Reset-After` header value and raises `ValueError` when the
string is not a float literal.  Accepts an optionally signed,
whitespace-stripped float literal (`digits[.digits]`, `.digits`,
optional `e`/`E` exponent, underscores between digits) or
`inf`/`infinity`/`nan`; the numeric value itself is not interpreted, as
the dispatcher only forwards it to the blocker's sleep. -/
def pyFloatAccepts (s : String) : Bool :=
  let body := dropSign (stripWs s.data)
  if isInfNan body then true
  else
    let p := splitAtExp body
    match p.2 with
    | none => acceptMantissa p.1
    | some e => acceptMantissa p.1 && digitGroup (dropSign e)

/-- A parsed response body, as returned by `utils._text_or_json`. -/
inductive ParsedBody where
  | json (j : Json) : ParsedBody
  | text (s : String) : ParsedBody

/-- Modelled from the spec: `utils._text_or_json` (utils.py is not in
src/): "parse and return the body (JSON if content-type indicates JSON,
else raw text; empty body → `null`/`None`-equivalent)" (§4.2 step 7). -/
def textOrJson (r : Response) : Option ParsedBody :=
  if r.textBody = "" then none
  else if dictLookup r.headers "Content-Type" = some "application/json" then
    match r.jsonBody with
    | some j => some (ParsedBody.json j)
    | none => some (ParsedBody.text r.textBody)
  else some (ParsedBody.text r.textBody)

/-- The externally visible actions of one `request` call, in program
order. -/
inductive Event where
  | fileReset (idx retryIdx : Nat) : Event
  | waitedOn (bucket : Option String) (isGlobal : Bool) : Event
  | networkCall (method url : String) (headers : PyDict String) : Event
  | waited429 (bucket : String) : Event
  | registered (bucket : String) : Event
  | blocked (bucket resetAfter : String) (isGlobal : Bool) : Event
  | deregistered (bucket : String) : Event
  | fileClosed (idx : Nat) : Event
  deriving DecidableEq

/-- The blocker registry `HTTPClient._blockers`: a Python dict from
bucket id to `Block`. -/
abbrev Registry := PyDict Block

/-- The Python `==` comparison chain of lines 78-82: the blocker's
route and the request's route agree on channel id, guild id, webhook id
or webhook token — `None == None` compares equal, exactly as in
Python. -/
def idOverlap (a b : Route) : Bool :=
  a.channel_id == b.channel_id || a.guild_id == b.guild_id ||
    a.webhook_id == b.webhook_id || a.webhook_token == b.webhook_token

/-- The blocker scan of lines 77-93, over the registry's values in
insertion order, returning the blockers waited on in order: an
id-overlapping blocker is awaited and the scan continues (no `break`);
otherwise a blocker whose `route.path` equals the resolved endpoint, or
a global blocker, is awaited and the scan `break`s. -/
def scanBlockers (bs : List Block) (route : Route) (endpoint : String) :
    List Block :=
  match bs with
  | [] => []
  | b :: rest =>
      if idOverlap b.route route then b :: scanBlockers rest route endpoint
      else if b.route.path == endpoint then [b]
      else if b.is_global then [b]
      else scanBlockers rest route endpoint

/-- How one attempt of the retry loop ended. -/
inductive AttemptOutcome where
  | retryNoBucket : AttemptOutcome
  | retryExisting (bucket : String) : AttemptOutcome
  | retryNewBlock (bucket resetAfter : String) (isGlobal : Bool) : AttemptOutcome
  | errored (e : PyError) : AttemptOutcome
  | returned (body : Option ParsedBody) : AttemptOutcome

/-- The result of one attempt: its outcome, the registry afterwards,
its events, and a snapshot of the registry after each registry
mutation. -/
structure AttemptRes where
  outcome : AttemptOutcome
  reg : Registry
  events : List Event
  snaps : List Registry

/-- The events every attempt performs before inspecting the response:
the file resets of lines 73-75 (when files are truthy), the blocker
waits of lines 77-93, and the network call of lines 95-101. -/
def preEvents (reg : Registry) (route : Route) (endpoint : String)
    (hdrs : PyDict String) (method : String) (files : List File)
    (hasFiles : Bool) (retryIdx : Nat) : List Event :=
  (if hasFiles then (List.range files.length).map (fun i => Event.fileReset i retryIdx)
    else []) ++
    (scanBlockers (reg.map (fun p => p.2)) route endpoint).map
      (fun b => Event.waitedOn b.bucket_denom b.is_global) ++
    [Event.networkCall method endpoint hdrs]

/-- One iteration of the `for retry in range(self.max_retries)` loop of
`HTTPClient.request` (lines 72-143): reset the files, scan and await
overlapping blockers, issue the network call, then handle the scripted
response — 429 bucket bookkeeping (lines 104-126, where the `block`
call's arguments are evaluated after the blocker was registered at
line 116: a missing `X-RateLimit-Reset-After` or `X-RateLimit-Scope`
header raises `KeyError`, and `float(...)` at line 120 raises
`ValueError` on a non-numeric value, each leaving the blocker
registered), error mapping (lines 129-139, including the debug prints
`print(await r.json())` and `print(data._fields)` of lines 137-138), or
parse-and-return (line 143). -/
def attempt (reg : Registry) (route : Route) (endpoint : String)
    (hdrs : PyDict String) (method : String) (files : List File)
    (hasFiles isForm : Bool) (retryIdx : Nat) (r : Response) : AttemptRes :=
  let pre := preEvents reg route endpoint hdrs method files hasFiles retryIdx
  if r.status = 429 then
    match dictLookup r.headers "X-RateLimit-Bucket" with
    | none => ⟨AttemptOutcome.retryNoBucket, reg, pre, []⟩
    | some bucket =>
        match dictLookup reg bucket with
        | some _ => ⟨AttemptOutcome.retryExisting bucket, reg,
            pre ++ [Event.waited429 bucket], []⟩
        | none =>
            let reg1 := dictSet reg bucket { route := route }
            match dictLookup r.headers "X-RateLimit-Reset-After" with
            | none => ⟨AttemptOutcome.errored (PyError.keyError "X-RateLimit-Reset-After"),
                reg1, pre ++ [Event.registered bucket], [reg1]⟩
            | some resetAfter =>
                if pyFloatAccepts resetAfter then
                  match dictLookup r.headers "X-RateLimit-Scope" with
                  | none => ⟨AttemptOutcome.errored (PyError.keyError "X-RateLimit-Scope"),
                      reg1, pre ++ [Event.registered bucket], [reg1]⟩
                  | some scope =>
                      let g := scope == "global"
                      let reg2 := dictSet reg1 bucket
                        { route := route, bucket_denom := some bucket, is_global := g }
                      let reg3 := dictDel reg2 bucket
                      ⟨AttemptOutcome.retryNewBlock bucket resetAfter g, reg3,
                        pre ++ [Event.registered bucket, Event.blocked bucket resetAfter g,
                          Event.deregistered bucket],
                        [reg1, reg2, reg3]⟩
                else
                  ⟨AttemptOutcome.errored PyError.valueError, reg1,
                    pre ++ [Event.registered bucket], [reg1]⟩
  else if r.status ≥ 400 then
    if r.status = 401 then ⟨AttemptOutcome.errored PyError.unauthorized, reg, pre, []⟩
    else if r.status = 403 then ⟨AttemptOutcome.errored PyError.forbidden, reg, pre, []⟩
    else if r.status = 404 then ⟨AttemptOutcome.errored PyError.notFound, reg, pre, []⟩
    else
      match r.jsonBody with
      | none => ⟨AttemptOutcome.errored PyError.contentTypeError, reg, pre, []⟩
      | some _ =>
          if isForm then ⟨AttemptOutcome.errored PyError.httpException, reg, pre, []⟩
          else ⟨AttemptOutcome.errored PyError.attributeError, reg, pre, []⟩
  else ⟨AttemptOutcome.returned (textOrJson r), reg, pre, []⟩

/-- The accumulated result of running the retry loop. -/
structure LoopRes where
  result : Except PyError (Option ParsedBody)
  reg : Registry
  events : List Event
  snaps : List Registry

/-- The retry loop of `request`: runs attempts on the scripted
responses, indexing each attempt; a `continue` outcome goes to the next
iteration, a raise or return ends the loop, and falling off the end of
the loop (retry exhaustion) yields the implicit Python `None`. -/
def runLoop (responses : Nat → Response) (route : Route) (endpoint : String)
    (hdrs : PyDict String) (method : String) (files : List File)
    (hasFiles isForm : Bool) : Nat → Nat → Registry → LoopRes
  | 0, _, reg => ⟨Except.ok none, reg, [], []⟩
  | fuel + 1, idx, reg =>
      let a := attempt reg route endpoint hdrs method files hasFiles isForm idx
        (responses idx)
      match a.outcome with
      | AttemptOutcome.returned b => ⟨Except.ok b, a.reg, a.events, a.snaps⟩
      | AttemptOutcome.errored e => ⟨Except.error e, a.reg, a.events, a.snaps⟩
      | _ =>
          let rest := runLoop responses route endpoint hdrs method files hasFiles isForm
            fuel (idx + 1) a.reg
          ⟨rest.result, rest.reg, a.events ++ rest.events, a.snaps ++ rest.snaps⟩

/-- The mutable state of an `HTTPClient` (lines 29-40): the lazily
created session, the fixed base headers, the blocker registry, the
retry bound and the resolved base URL. -/
structure HTTPClientState where
  session : Bool
  headers : PyDict String
  blockers : Registry
  maxRetries : Nat
  url : String

/-- `HTTPClient.__init__(token, version, max_retries)`: no session yet,
base headers `Authorization` and `User-Agent`, empty blocker registry,
and the versioned base URL. -/
def initClient (token : String) (version : Nat) (maxRetries : Nat) :
    HTTPClientState :=
  { session := false,
    headers := [("Authorization", "Bot " ++ token),
      ("User-Agent", "DiscordBot (https://github.com/pycord/pycord-v3, 3.0.0)")],
    blockers := [],
    maxRetries := maxRetries,
    url := "https://discord.com/api/v" ++ toString version }

/-- The header assembly of lines 61-63 and 69: a copy of the base
headers, `X-Audit-Log-Reason` when a truthy `reason` is supplied, and
`Content-Type: application/json` when a truthy JSON payload (and no
files) is being sent. -/
def buildHeaders (base : PyDict String) (reason : Option String)
    (jsonCT : Bool) : PyDict String :=
  let h1 := match reason with
    | some s => if s = "" then base else dictSet base "X-Audit-Log-Reason" s
    | none => base
  if jsonCT then dictSet h1 "Content-Type" "application/json" else h1

/-- Python truthiness of the `files` argument: `if files:` is false for
`None` and for an empty list. -/
def truthyFiles (files : Option (List File)) : Bool :=
  match files with
  | none => false
  | some l => !l.isEmpty

/-- Python truthiness of the `data` argument: `elif data:` is false for
`None` and for an empty dict. -/
def truthyData (data : Option (PyDict Json)) : Bool :=
  match data with
  | none => false
  | some d => !d.isEmpty

/-- The overall result of one `request` call: the returned parsed body
(or raised exception), the client state afterwards, the event trace,
and every registry state the call passed through (the state on entry
followed by a snapshot after every registry mutation). -/
structure RunResult where
  result : Except PyError (Option ParsedBody)
  state : HTTPClientState
  events : List Event
  snaps : List Registry

/-- `HTTPClient.request(method, route, data, files=, reason=)`
(lines 46-147), against the scripted responses: resolve the endpoint,
lazily create the session, copy the base headers and add the audit
reason, prepare the body (multipart via `_prepare_form` when files are
truthy — which raises `TypeError` before the `try` block when `data` is
`None`, since `_prepare_form` then executes
`None["attachments"] = ...` — else JSON-serialize a truthy `data`),
then run the retry loop inside `try/finally`, the `finally` closing
every file exactly once when files are truthy. -/
def runRequest (st : HTTPClientState) (method : String) (route : Route)
    (data : Option (PyDict Json)) (files : Option (List File))
    (reason : Option String) (responses : Nat → Response) : RunResult :=
  let endpoint := route.merge st.url
  let st1 := { st with session := true }
  let fs := files.getD []
  let hasFiles := truthyFiles files
  if hasFiles && data.isNone then
    ⟨Except.error PyError.typeError, st1, [], []⟩
  else
    let isForm := hasFiles
    let hdrs := buildHeaders st.headers reason (!hasFiles && truthyData data)
    let lr := runLoop responses route endpoint hdrs method fs hasFiles isForm
      st.maxRetries 0 st.blockers
    let closeEvts :=
      if hasFiles then (List.range fs.length).map Event.fileClosed else []
    ⟨lr.result, { st1 with blockers := lr.reg }, lr.events ++ closeEvts,
      st.blockers :: lr.snaps⟩

/-- The registry invariant of a real Python dict: its keys are pairwise
distinct. -/
def keysNodup {α : Type} (d : PyDict α) : Prop :=
  (d.map Prod.fst).Nodup

instance {α : Type} (d : PyDict α) : Decidable (keysNodup d) := by
  unfold keysNodup
  infer_instance

/-- The spec's scoping rule (§3), by its words: the two routes share
some NON-NULL scoping identifier (guild, channel, webhook id, webhook
token).  This is the comparison the specification describes; the source
compares the raw optional values instead (`idOverlap`). -/
def nonNullIdMatch (a b : Route) : Bool :=
  (a.guild_id.isSome && a.guild_id == b.guild_id) ||
    (a.channel_id.isSome && a.channel_id == b.channel_id) ||
    (a.webhook_id.isSome && a.webhook_id == b.webhook_id) ||
    (a.webhook_token.isSome && a.webhook_token == b.webhook_token)

/-- The claim's suspension condition, following the spec's words: the
blocker's route and the request's route have some non-null scoping
identifier in common, or the blocker's route resolves to the exact same
URL as the request, or the blocker is global. -/
def specSameBucket (b : Block) (req : Route) (base : String) : Bool :=
  nonNullIdMatch b.route req || b.route.merge base == req.merge base || b.is_global

/-- Whether an event is a blocker registration or a block call. -/
def Event.isRegOrBlock : Event → Bool
  | Event.registered _ => true
  | Event.blocked _ _ _ => true
  | _ => false

/-- Whether an event closes the content source of the file at index
`i`. -/
def isFileClosed (i : Nat) : Event → Bool
  | Event.fileClosed j => j == i
  | _ => false

/-- Whether an event carries no `X-Audit-Log-Reason` header: true of
every non-network event, and of a network call whose header dict has no
such key. -/
def noAudit : Event → Bool
  | Event.networkCall _ _ hs => hs.all (fun p => !(p.1 == "X-Audit-Log-Reason"))
  | _ => true

/-- A concrete request route with all four scoping identifiers set
(so a blocker can fail to overlap it). -/
def exReq : Route := Route.mk "/c" (some "1") (some "9") (some "5") (some "6")

/-- A second concrete request route with all identifiers set. -/
def exReq2 : Route := Route.mk "/c" (some "1") (some "2") (some "3") (some "4")

/-- A blocker sharing `exReq`'s guild id (and nothing else). -/
def exOverlap : Block :=
  Block.mk (Route.mk "/a" (some "1") (some "99") (some "55") (some "66")) none false

/-- A blocker sharing nothing with `exReq`: different path, all four
identifiers different, not global. -/
def exOther : Block :=
  Block.mk (Route.mk "/b" (some "2") (some "88") (some "77") (some "44")) none false

/-- `exOther`'s route as a global blocker. -/
def exOtherGlobal : Block :=
  Block.mk (Route.mk "/b" (some "2") (some "88") (some "77") (some "44")) none true

/-- A global blocker overlapping `exReq` on no identifier. -/
def exGlobalZ : Block :=
  Block.mk (Route.mk "/z" (some "3") (some "33") (some "34") (some "35")) none true

/-- A first global blocker overlapping `exReq2` on no identifier. -/
def exGlobalX : Block :=
  Block.mk (Route.mk "/x" (some "9") (some "8") (some "7") (some "6")) (some "g1") true

/-- A second global blocker overlapping `exReq2` on no identifier,
registered after `exGlobalX`. -/
def exGlobalY : Block :=
  Block.mk (Route.mk "/y" (some "99") (some "88") (some "77") (some "66")) (some "g2") true

theorem mem_map_fst_dictSet {α : Type} (d : PyDict α) (k s : String) (v : α)
    (h : s ∈ (dictSet d k v).map Prod.fst) : s ∈ d.map Prod.fst ∨ s = k := by
  induction d with
  | nil =>
    simp only [dictSet, List.map_cons, List.map_nil, List.mem_singleton] at h
    right; exact h
  | cons p rest ih =>
    by_cases hp : p.1 = k
    · simp only [dictSet, hp, beq_self_eq_true, if_true, List.map_cons, List.mem_cons] at h
      rcases h with h | h
      · right; exact h
      · left
        simp only [List.map_cons, List.mem_cons]
        right; exact h
    · simp only [dictSet, beq_iff_eq, if_neg hp, List.map_cons, List.mem_cons] at h
      simp only [List.map_cons, List.mem_cons]
      rcases h with h | h
      · left; left; exact h
      · rcases ih h with h' | h'
        · left; right; exact h'
        · right; exact h'

theorem mem_map_fst_dictDel {α : Type} (d : PyDict α) (k s : String)
    (h : s ∈ (dictDel d k).map Prod.fst) : s ∈ d.map Prod.fst := by
  induction d with
  | nil => simp [dictDel] at h
  | cons p rest ih =>
    simp only [List.map_cons, List.mem_cons]
    by_cases hp : p.1 = k
    · simp only [dictDel, hp, beq_self_eq_true, if_true] at h
      right; exact h
    · simp only [dictDel, beq_iff_eq, if_neg hp, List.map_cons, List.mem_cons] at h
      rcases h with h | h
      · left; exact h
      · right; exact ih h

theorem keysNodup_dictSet {α : Type} (d : PyDict α) (k : String) (v : α)
    (h : keysNodup d) : keysNodup (dictSet d k v) := by
  induction d with
  | nil => simp [dictSet, keysNodup]
  | cons p rest ih =>
    unfold keysNodup at h
    simp only [List.map_cons, List.nodup_cons] at h
    obtain ⟨hnm, hrest⟩ := h
    by_cases hp : p.1 = k
    · unfold keysNodup
      simp only [dictSet, hp, beq_self_eq_true, if_true, List.map_cons, List.nodup_cons]
      exact ⟨by rw [← hp]; exact hnm, hrest⟩
    · unfold keysNodup at ih ⊢
      simp only [dictSet, beq_iff_eq, if_neg hp, List.map_cons, List.nodup_cons]
      refine ⟨?_, ih hrest⟩
      intro hmem
      rcases mem_map_fst_dictSet rest k p.1 v hmem with h' | h'
      · exact hnm h'
      · exact hp h'

theorem keysNodup_dictDel {α : Type} (d : PyDict α) (k : String)
    (h : keysNodup d) : keysNodup (dictDel d k) := by
  induction d with
  | nil => simpa [dictDel] using h
  | cons p rest ih =>
    unfold keysNodup at h
    simp only [List.map_cons, List.nodup_cons] at h
    obtain ⟨hnm, hrest⟩ := h
    by_cases hp : p.1 = k
    · simpa only [dictDel, hp, beq_self_eq_true, if_true, keysNodup] using hrest
    · unfold keysNodup at ih ⊢
      simp only [dictDel, beq_iff_eq, if_neg hp, List.map_cons, List.nodup_cons]
      exact ⟨fun hmem => hnm (mem_map_fst_dictDel rest k p.1 hmem), ih hrest⟩

theorem dictSet_of_lookup_none {α : Type} (d : PyDict α) (k : String) (v : α)
    (h : dictLookup d k = none) : dictSet d k v = d ++ [(k, v)] := by
  induction d with
  | nil => rfl
  | cons p rest ih =>
    by_cases hp : p.1 = k
    · simp [dictLookup, hp] at h
    · simp only [dictLookup, beq_iff_eq, if_neg hp] at h
      simp [dictSet, beq_iff_eq, hp, ih h]

theorem dictSet_append_singleton {α : Type} (d : PyDict α) (k : String) (v v' : α)
    (h : dictLookup d k = none) : dictSet (d ++ [(k, v)]) k v' = d ++ [(k, v')] := by
  induction d with
  | nil => simp [dictSet]
  | cons p rest ih =>
    by_cases hp : p.1 = k
    · simp [dictLookup, hp] at h
    · simp only [dictLookup, beq_iff_eq, if_neg hp] at h
      simp [dictSet, beq_iff_eq, hp, ih h]

theorem dictDel_append_singleton {α : Type} (d : PyDict α) (k : String) (v : α)
    (h : dictLookup d k = none) : dictDel (d ++ [(k, v)]) k = d := by
  induction d with
  | nil => simp [dictDel]
  | cons p rest ih =>
    by_cases hp : p.1 = k
    · simp [dictLookup, hp] at h
    · simp only [dictLookup, beq_iff_eq, if_neg hp] at h
      simp [dictDel, beq_iff_eq, hp, ih h]

theorem dictLookup_append_singleton {α : Type} (d : PyDict α) (k : String) (v : α)
    (h : dictLookup d k = none) : dictLookup (d ++ [(k, v)]) k = some v := by
  induction d with
  | nil => simp [dictLookup]
  | cons p rest ih =>
    by_cases hp : p.1 = k
    · simp [dictLookup, hp] at h
    · simp only [dictLookup, beq_iff_eq, if_neg hp] at h
      simp [dictLookup, beq_iff_eq, hp, ih h]

/-- Every blocker the scan of lines 77-93 waits on either id-overlaps
the request's route (Python `==`, nulls included), or has `route.path`
equal to the resolved endpoint, or is global; and when no blocker in the
registry path-matches or is global (so no `break` fires), the scan waits
on exactly the id-overlapping blockers, in registry order. -/
theorem scanBlockers_spec (bs : List Block) (route : Route) (ep : String) :
    ((scanBlockers bs route ep).all
        (fun b => idOverlap b.route route || b.route.path == ep || b.is_global) = true)
    ∧ ((bs.all (fun b => !(b.route.path == ep) && !b.is_global) = true) →
        scanBlockers bs route ep = bs.filter (fun b => idOverlap b.route route)) := by
  induction bs with
  | nil => exact ⟨rfl, fun _ => rfl⟩
  | cons b rest ih =>
    constructor
    · by_cases h1 : idOverlap b.route route
      · simp [scanBlockers, h1, ih.1]
      · by_cases h2 : b.route.path == ep
        · simp [scanBlockers, h1, h2]
        · by_cases h3 : b.is_global
          · simp [scanBlockers, h1, h2, h3]
          · simp [scanBlockers, h1, h2, h3, ih.1]
    · intro hall
      simp only [List.all_cons, Bool.and_eq_true, Bool.not_eq_true'] at hall
      obtain ⟨⟨hp, hg⟩, hrest⟩ := hall
      by_cases h1 : idOverlap b.route route
      · simp [scanBlockers, h1, List.filter_cons, ih.2 hrest]
      · simp [scanBlockers, h1, hp, hg, List.filter_cons, ih.2 hrest]

/-- A blocker that does not id-overlap the request but path-matches the
endpoint or is global `break`s the scan (lines 86-93): whatever follows
it in the registry is never examined, so the scan of a registry with
anything after it equals the scan of the registry cut right after it. -/
theorem scanBlockers_break (route : Route) (ep : String) (l1 : List Block) (b : Block)
    (l2 : List Block)
    (hno : idOverlap b.route route = false)
    (hbrk : (b.route.path == ep || b.is_global) = true) :
    scanBlockers (l1 ++ b :: l2) route ep = scanBlockers (l1 ++ [b]) route ep := by
  induction l1 with
  | nil =>
    simp only [List.nil_append]
    rcases Bool.or_eq_true_iff.mp hbrk with hp | hg
    · simp [scanBlockers, hno, hp]
    · by_cases hp : (b.route.path == ep) = true
      · simp [scanBlockers, hno, hp]
      · simp [scanBlockers, hno, hp, hg]
  | cons x l1 ih =>
    simp only [List.cons_append, scanBlockers]
    by_cases h1 : idOverlap x.route route
    · simp [h1, ih]
    · by_cases h2 : x.route.path == ep
      · simp [h1, h2]
      · by_cases h3 : x.is_global
        · simp [h1, h2, h3]
        · simp [h1, h2, h3, ih]

/-- C1: the claim's "suspends iff some non-null scoping identifier is
shared, or same resolved URL, or global" is false on the code in both
directions.  Only-if: the source compares the optional identifiers with
Python `==`, under which two `None`s are equal, so a blocker and a
request with no identifiers at all and different paths share no
non-null identifier, have different resolved URLs and the blocker is
not global, yet the dispatcher waits on the blocker before its network
call.  If: the `break` of line 93 ends the scan at the first global
blocker, so a second global blocker — which the claim says must be
suspended on — is never awaited. -/
theorem c1_claim_counterexample :
    scanBlockers [{ route := { path := "/channels/2/messages" }, bucket_denom := some "abc" }]
        { path := "/guilds/1/emojis" } ("https://discord.com/api/v10" ++ "/guilds/1/emojis") =
      [{ route := { path := "/channels/2/messages" }, bucket_denom := some "abc" }]
    ∧ specSameBucket
        { route := { path := "/channels/2/messages" }, bucket_denom := some "abc" }
        { path := "/guilds/1/emojis" } "https://discord.com/api/v10" = false
    ∧ (runRequest
          { (initClient "t" 10 1) with
              blockers := [("abc",
                { route := { path := "/channels/2/messages" }, bucket_denom := some "abc" })] }
          "GET" { path := "/guilds/1/emojis" } none none none
          (fun _ => { status := 200 })).events.head? =
        some (Event.waitedOn (some "abc") false)
    ∧ specSameBucket exGlobalY exReq2 "https://d" = true
    ∧ ¬ exGlobalY ∈ scanBlockers [exGlobalX, exGlobalY] exReq2
          (exReq2.merge "https://d") := by
  refine ⟨by decide, by decide, ?_, by decide, by decide⟩
  decide

/-- C1 (amended): the dispatcher suspends only on blockers that
id-overlap the request's route under Python `==` (a null identifier
compares equal to a null identifier), or whose `route.path` equals the
resolved URL, or that are global; whenever no registered blocker
path-matches or is global, it suspends on exactly the id-overlapping
blockers (so a blocker matching none of the three conditions is never
waited on); and a non-id-overlapping path or global match ends the
scan, so the blockers after it are never awaited. -/
theorem c1_amended_overlap (bs : List Block) (route : Route) (ep : String) :
    ((scanBlockers bs route ep).all
        (fun b => idOverlap b.route route || b.route.path == ep || b.is_global) = true)
    ∧ ((bs.all (fun b => !(b.route.path == ep) && !b.is_global) = true) →
        scanBlockers bs route ep = bs.filter (fun b => idOverlap b.route route))
    ∧ (∀ (l1 : List Block) (b : Block) (l2 : List Block),
        idOverlap b.route route = false →
        (b.route.path == ep || b.is_global) = true →
        scanBlockers (l1 ++ b :: l2) route ep = scanBlockers (l1 ++ [b]) route ep) :=
  ⟨(scanBlockers_spec bs route ep).1, (scanBlockers_spec bs route ep).2,
    fun l1 b l2 hno hbrk => scanBlockers_break route ep l1 b l2 hno hbrk⟩

theorem c1_amended_overlap_witness :
    ((scanBlockers [exOverlap, exOther] exReq "https://d/c").all
        (fun b => idOverlap b.route exReq || b.route.path == "https://d/c"
          || b.is_global) = true)
    ∧ scanBlockers [exOverlap, exOther] exReq "https://d/c" =
        ([exOverlap, exOther] : List Block).filter (fun b => idOverlap b.route exReq)
    ∧ scanBlockers ([exOverlap] ++ exGlobalZ :: [exOtherGlobal]) exReq "https://d/c" =
        scanBlockers ([exOverlap] ++ [exGlobalZ]) exReq "https://d/c" :=
  ⟨(c1_amended_overlap [exOverlap, exOther] exReq "https://d/c").1,
    (c1_amended_overlap [exOverlap, exOther] exReq "https://d/c").2.1 (by decide),
    (c1_amended_overlap [exOverlap, exOther] exReq "https://d/c").2.2
      [exOverlap] exGlobalZ [exOtherGlobal] (by decide) (by decide)⟩

theorem dictLookup_dictSet_self {α : Type} (d : PyDict α) (k : String) (v : α) :
    dictLookup (dictSet d k v) k = some v := by
  induction d with
  | nil => simp [dictSet, dictLookup]
  | cons p rest ih =>
    by_cases hp : p.1 = k
    · simp [dictSet, dictLookup, hp]
    · simp [dictSet, dictLookup, beq_iff_eq, hp, ih]

theorem dictLookup_dictSet_ne {α : Type} (d : PyDict α) (k k' : String) (v : α)
    (h : ¬ k' = k) :
    dictLookup (dictSet d k v) k' = dictLookup d k' := by
  have hkk' : ¬ k = k' := fun hh => h hh.symm
  induction d with
  | nil => simp [dictSet, dictLookup, hkk']
  | cons p rest ih =>
    by_cases hp : p.1 = k
    · simp [dictSet, dictLookup, hp, hkk']
    · by_cases hp' : p.1 = k'
      · simp [dictSet, dictLookup, beq_iff_eq, hp, hp', h]
      · simp [dictSet, dictLookup, beq_iff_eq, hp, hp', ih]

theorem formFileFields_length (s : Nat) (files : List File) :
    (formFileFields s files).length = files.length := by
  induction files generalizing s with
  | nil => rfl
  | cons f rest ih => simp [formFileFields, ih]

theorem formFileFields_getElem (files : List File) (s i : Nat) :
    (formFileFields s files)[i]? = (files[i]?).map (fun f => fileFieldAt (s + i) f) := by
  induction files generalizing s i with
  | nil => simp [formFileFields]
  | cons f rest ih =>
    cases i with
    | zero => simp [formFileFields]
    | succ j =>
      simp only [formFileFields, List.getElem?_cons_succ]
      rw [ih (s + 1) j, Nat.add_assoc, Nat.add_comm 1 j]

theorem attachmentsFrom_getElem (files : List File) (s i : Nat) :
    (attachmentsFrom s files)[i]? = (files[i]?).map (fun f => attachmentEntry (s + i) f) := by
  induction files generalizing s i with
  | nil => simp [attachmentsFrom]
  | cons f rest ih =>
    cases i with
    | zero => simp [attachmentsFrom]
    | succ j =>
      simp only [attachmentsFrom, List.getElem?_cons_succ]
      rw [ih (s + 1) j, Nat.add_assoc, Nat.add_comm 1 j]

/-- C8: `_prepare_form` builds, for N attachment descriptors and a
payload mapping, a multipart body with quoting disabled whose field 0 is
`payload_json` holding the JSON serialization of the payload with the
`attachments` key set to the array whose entry i is
`{"id": i, "filename": ..., "description": ...}`, and whose fields 1..N
are `files[i]` carrying each file's content source as
`application/octet-stream`, in input order; on the spec's round-trip
example the serialized `payload_json` is exactly
`{"content":"hi","attachments":[{"id":0,"filename":"a.png","description":"d"}]}`
and exactly one `files[0]` field exists. -/
theorem c8_form_layout (files : List File) (payload : PyDict Json) :
    (prepareForm files payload).1.quote_fields = false
    ∧ (prepareForm files payload).1.fields.length = files.length + 1
    ∧ (prepareForm files payload).1.fields.head? = some
        { name := "payload_json",
          value := FormValue.text (Json.dumps (Json.obj
            (dictSet payload "attachments" (Json.arr (attachmentsFrom 0 files))))),
          filename := none, content_type := none }
    ∧ (∀ i : Nat, (prepareForm files payload).1.fields[i + 1]? =
        (files[i]?).map (fun f => fileFieldAt i f))
    ∧ (∀ i : Nat, (attachmentsFrom 0 files)[i]? =
        (files[i]?).map (fun f => attachmentEntry i f))
    ∧ (prepareForm [{ filename := "a.png", description := "d", fp := 0 }]
          [("content", Json.str "hi")]).1.fields.head? = some
        { name := "payload_json",
          value := FormValue.text
            "\x7b\"content\":\"hi\",\"attachments\":[\x7b\"id\":0,\"filename\":\"a.png\",\"description\":\"d\"\x7d]\x7d",
          filename := none, content_type := none }
    ∧ ((prepareForm [{ filename := "a.png", description := "d", fp := 0 }]
          [("content", Json.str "hi")]).1.fields.filter
          (fun fl => fl.name == "files[0]")).length = 1 := by
  refine ⟨rfl, ?_, rfl, ?_, ?_, ?_, by decide⟩
  · simp [prepareForm, formFileFields_length]
  · intro i
    have hfe : (prepareForm files payload).1.fields[i + 1]? = (formFileFields 0 files)[i]? := by
      simp [prepareForm]
    rw [hfe, formFileFields_getElem files 0 i, Nat.zero_add]
  · intro i
    rw [attachmentsFrom_getElem files 0 i, Nat.zero_add]
  · simp [prepareForm, dictSet, attachmentsFrom, attachmentEntry, Json.dumps,
      List.attach, List.attachWith, String.intercalate, escapeJson]
    decide

/-- C9: the claim that `_prepare_form` leaves the caller-supplied
payload mapping unchanged is false on the code: line 170 executes
`payload["attachments"] = attachments`, mutating the caller's dict.
Calling it with one file and an empty payload leaves the payload with an
`attachments` key it did not have before. -/
theorem c9_claim_counterexample :
    (dictLookup (prepareForm [{ filename := "a.png", description := "d", fp := 0 }]
        ([] : PyDict Json)).2 "attachments").isSome = true
    ∧ (dictLookup ([] : PyDict Json) "attachments").isSome = false :=
  ⟨rfl, rfl⟩

/-- C9 (amended): `_prepare_form` is deterministic in its arguments but
mutates the caller-supplied payload mapping at exactly the
`attachments` key: after the call that key holds the attachment
metadata array, and every other key is unchanged. -/
theorem c9_amended_mutation (files : List File) (payload : PyDict Json) (k : String)
    (h : ¬ k = "attachments") :
    dictLookup (prepareForm files payload).2 k = dictLookup payload k
    ∧ dictLookup (prepareForm files payload).2 "attachments" =
        some (Json.arr (attachmentsFrom 0 files)) := by
  constructor
  · simpa [prepareForm] using
      dictLookup_dictSet_ne payload "attachments" k (Json.arr (attachmentsFrom 0 files)) h
  · simpa [prepareForm] using
      dictLookup_dictSet_self payload "attachments" (Json.arr (attachmentsFrom 0 files))

theorem c9_amended_mutation_witness :
    (¬ "content" = "attachments")
    ∧ (dictLookup (prepareForm [{ filename := "a.png", description := "d", fp := 0 }]
          [("content", Json.str "hi")]).2 "content" =
        dictLookup [("content", Json.str "hi")] "content"
      ∧ dictLookup (prepareForm [{ filename := "a.png", description := "d", fp := 0 }]
          [("content", Json.str "hi")]).2 "attachments" =
        some (Json.arr (attachmentsFrom 0 [{ filename := "a.png", description := "d", fp := 0 }]))) :=
  ⟨by decide,
    c9_amended_mutation [{ filename := "a.png", description := "d", fp := 0 }]
      [("content", Json.str "hi")] "content" (by decide)⟩

theorem preEvents_clean (reg : Registry) (route : Route) (ep : String)
    (hdrs : PyDict String) (method : String) (files : List File)
    (hasFiles : Bool) (idx : Nat) :
    (preEvents reg route ep hdrs method files hasFiles idx).all
      (fun e => !e.isRegOrBlock) = true := by
  unfold preEvents
  cases hasFiles <;>
    simp [List.all_append, List.all_eq_true, Event.isRegOrBlock, List.mem_map]

/-- Lines 104-108: a 429 whose headers lack `X-RateLimit-Bucket` makes
the attempt `continue`, leaving the registry untouched, registering and
blocking nothing, and raising nothing. -/
theorem attempt_429_no_bucket (reg : Registry) (route : Route) (ep : String)
    (hdrs : PyDict String) (method : String) (files : List File)
    (hasFiles isForm : Bool) (idx : Nat) (r : Response)
    (h429 : r.status = 429)
    (hb : dictLookup r.headers "X-RateLimit-Bucket" = none) :
    (attempt reg route ep hdrs method files hasFiles isForm idx r).outcome =
        AttemptOutcome.retryNoBucket
    ∧ (attempt reg route ep hdrs method files hasFiles isForm idx r).reg = reg
    ∧ (attempt reg route ep hdrs method files hasFiles isForm idx r).snaps = []
    ∧ (attempt reg route ep hdrs method files hasFiles isForm idx r).events.all
        (fun e => !e.isRegOrBlock) = true := by
  refine ⟨?_, ?_, ?_, ?_⟩ <;>
    simp only [attempt, h429, hb, if_pos rfl] <;>
    first
      | rfl
      | exact preEvents_clean reg route ep hdrs method files hasFiles idx

/-- C7: for a 429 response lacking the `X-RateLimit-Bucket` header, the
attempt is abandoned and retried: the outcome is the `continue` of
line 108, the registry is unchanged, no Blocker is registered or
blocked, no registry snapshot is produced, and no error is raised. -/
theorem c7_malformed_429 (reg : Registry) (route : Route) (ep : String)
    (hdrs : PyDict String) (method : String) (files : List File)
    (hasFiles isForm : Bool) (idx : Nat) (r : Response)
    (h429 : r.status = 429)
    (hb : dictLookup r.headers "X-RateLimit-Bucket" = none) :
    (attempt reg route ep hdrs method files hasFiles isForm idx r).outcome =
        AttemptOutcome.retryNoBucket
    ∧ (attempt reg route ep hdrs method files hasFiles isForm idx r).reg = reg
    ∧ (attempt reg route ep hdrs method files hasFiles isForm idx r).events.all
        (fun e => !e.isRegOrBlock) = true
    ∧ ∀ e : PyError, (attempt reg route ep hdrs method files hasFiles isForm idx r).outcome ≠
        AttemptOutcome.errored e := by
  obtain ⟨h1, h2, _, h4⟩ := attempt_429_no_bucket reg route ep hdrs method files
    hasFiles isForm idx r h429 hb
  refine ⟨h1, h2, h4, ?_⟩
  intro e he
  rw [h1] at he
  exact AttemptOutcome.noConfusion he

theorem c7_malformed_429_witness :
    ((429 : Nat) = 429
      ∧ dictLookup ({ status := 429 } : Response).headers "X-RateLimit-Bucket" = none)
    ∧ ((attempt [] { path := "/a" } "https://d/a" [] "GET" [] false false 0
          { status := 429 }).outcome = AttemptOutcome.retryNoBucket
      ∧ (attempt [] { path := "/a" } "https://d/a" [] "GET" [] false false 0
          { status := 429 }).reg = []
      ∧ (attempt [] { path := "/a" } "https://d/a" [] "GET" [] false false 0
          { status := 429 }).events.all (fun e => !e.isRegOrBlock) = true
      ∧ ∀ e : PyError, (attempt [] { path := "/a" } "https://d/a" [] "GET" [] false false 0
          { status := 429 }).outcome ≠ AttemptOutcome.errored e) :=
  ⟨⟨rfl, rfl⟩, c7_malformed_429 [] { path := "/a" } "https://d/a" [] "GET" [] false false 0
    { status := 429 } rfl rfl⟩

theorem runLoop_all_retryNoBucket (responses : Nat → Response) (route : Route)
    (ep : String) (hdrs : PyDict String) (method : String) (files : List File)
    (hasFiles isForm : Bool) (fuel idx : Nat) (reg : Registry)
    (hall : ∀ j, j < fuel → (responses (idx + j)).status = 429 ∧
        dictLookup (responses (idx + j)).headers "X-RateLimit-Bucket" = none) :
    (runLoop responses route ep hdrs method files hasFiles isForm fuel idx reg).result =
      Except.ok none := by
  induction fuel generalizing idx reg with
  | zero => rfl
  | succ n ih =>
    have h0 := hall 0 (Nat.succ_pos n)
    simp only [Nat.add_zero] at h0
    have ha := attempt_429_no_bucket reg route ep hdrs method files hasFiles isForm idx
      (responses idx) h0.1 h0.2
    simp only [runLoop, ha.1]
    exact ih (idx + 1) _ (fun j hj => by
      have := hall (j + 1) (Nat.succ_lt_succ hj)
      have harith : idx + (j + 1) = idx + 1 + j := by omega
      rw [harith] at this
      exact this)

/-- C6: when every one of the `max_retries` attempts receives a
response that causes an internal retry — here, a 429 whose headers lack
the bucket header on every attempt — the loop completes without
`return`, and `request` returns the implicit Python `None` without
raising. -/
theorem c6_retry_exhaustion_silent (st : HTTPClientState) (method : String)
    (route : Route) (data : Option (PyDict Json)) (files : Option (List File))
    (reason : Option String) (responses : Nat → Response)
    (hprep : truthyFiles files = true → data.isNone = false)
    (hall : ∀ i, i < st.maxRetries → (responses i).status = 429 ∧
        dictLookup (responses i).headers "X-RateLimit-Bucket" = none) :
    (runRequest st method route data files reason responses).result = Except.ok none := by
  have hcond : (truthyFiles files && data.isNone) = false := by
    cases hft : truthyFiles files
    · simp
    · simp [hprep hft]
  simp only [runRequest, hcond, Bool.false_eq_true, if_false]
  exact runLoop_all_retryNoBucket responses route (route.merge st.url) _ method
    (files.getD []) (truthyFiles files) (truthyFiles files) st.maxRetries 0 st.blockers
    (fun j hj => by simpa using hall j hj)

theorem c6_retry_exhaustion_silent_witness :
    ((truthyFiles (none : Option (List File)) = true →
        (none : Option (PyDict Json)).isNone = false)
      ∧ ∀ i, i < (initClient "t" 10 3).maxRetries →
          (({ status := 429 } : Response).status = 429
            ∧ dictLookup ({ status := 429 } : Response).headers "X-RateLimit-Bucket" = none))
    ∧ (runRequest (initClient "t" 10 3) "GET" { path := "/users/@me" } none none none
        (fun _ => { status := 429 })).result = Except.ok none :=
  ⟨⟨fun h => by simp [truthyFiles] at h, fun _ _ => ⟨rfl, rfl⟩⟩,
    c6_retry_exhaustion_silent (initClient "t" 10 3) "GET" { path := "/users/@me" }
      none none none (fun _ => { status := 429 })
      (fun h => by simp [truthyFiles] at h) (fun _ _ => ⟨rfl, rfl⟩)⟩

/-- The new-block branch of lines 114-126 in closed form: under a 429
naming an unregistered bucket with complete rate-limit headers whose
reset-after value is a valid float literal, the attempt registers a
fresh Blocker for the route, arms it from the headers, deletes it
again, and retries — the net registry is the one it started from. -/
theorem attempt_new_block_eq (reg : Registry) (route : Route) (ep : String)
    (hdrs : PyDict String) (method : String) (files : List File)
    (hasFiles isForm : Bool) (idx : Nat) (r : Response) (b ra sc : String)
    (h429 : r.status = 429)
    (hb : dictLookup r.headers "X-RateLimit-Bucket" = some b)
    (hreg : dictLookup reg b = none)
    (hra : dictLookup r.headers "X-RateLimit-Reset-After" = some ra)
    (hpf : pyFloatAccepts ra = true)
    (hsc : dictLookup r.headers "X-RateLimit-Scope" = some sc) :
    attempt reg route ep hdrs method files hasFiles isForm idx r =
      ⟨AttemptOutcome.retryNewBlock b ra (sc == "global"),
        reg,
        preEvents reg route ep hdrs method files hasFiles idx ++
          [Event.registered b, Event.blocked b ra (sc == "global"), Event.deregistered b],
        [reg ++ [(b, Block.mk route none false)],
          reg ++ [(b, Block.mk route (some b) (sc == "global"))],
          reg]⟩ := by
  have e1 := dictSet_of_lookup_none reg b (Block.mk route none false) hreg
  have e2 := dictSet_append_singleton reg b (Block.mk route none false)
    (Block.mk route (some b) (sc == "global")) hreg
  have e3 := dictDel_append_singleton reg b
    (Block.mk route (some b) (sc == "global")) hreg
  simp [attempt, h429, hb, hreg, hra, hpf, hsc, e1, e2, e3]

/-- C3: on a 429 attempt whose response names bucket `b` (lines
104-126): if no Blocker is registered for `b` and the
`X-RateLimit-Reset-After` value is a valid float literal (line 120's
`float()` succeeds), the dispatcher creates a Blocker for the request's
route, registers it under `b`, blocks it with `reset_after` taken from
`X-RateLimit-Reset-After` and `is_global` true exactly when
`X-RateLimit-Scope` equals `"global"`, then removes it from the
registry and retries; if a Blocker for `b` already exists, it awaits
it and retries without registering or blocking a second one. -/
theorem c3_429_bucket_blocker (reg : Registry) (route : Route) (ep : String)
    (hdrs : PyDict String) (method : String) (files : List File)
    (hasFiles isForm : Bool) (idx : Nat) (r : Response) (b : String)
    (h429 : r.status = 429)
    (hb : dictLookup r.headers "X-RateLimit-Bucket" = some b) :
    (∀ ra sc, dictLookup reg b = none →
      dictLookup r.headers "X-RateLimit-Reset-After" = some ra →
      pyFloatAccepts ra = true →
      dictLookup r.headers "X-RateLimit-Scope" = some sc →
      (attempt reg route ep hdrs method files hasFiles isForm idx r).outcome =
          AttemptOutcome.retryNewBlock b ra (sc == "global")
        ∧ (attempt reg route ep hdrs method files hasFiles isForm idx r).events =
            preEvents reg route ep hdrs method files hasFiles idx ++
              [Event.registered b, Event.blocked b ra (sc == "global"),
                Event.deregistered b]
        ∧ (attempt reg route ep hdrs method files hasFiles isForm idx r).snaps.head? =
            some (reg ++ [(b, { route := route })])
        ∧ dictLookup (attempt reg route ep hdrs method files hasFiles isForm idx r).reg b =
            none)
    ∧ (∀ blk, dictLookup reg b = some blk →
        (attempt reg route ep hdrs method files hasFiles isForm idx r).outcome =
            AttemptOutcome.retryExisting b
        ∧ (attempt reg route ep hdrs method files hasFiles isForm idx r).reg = reg
        ∧ (attempt reg route ep hdrs method files hasFiles isForm idx r).events =
            preEvents reg route ep hdrs method files hasFiles idx ++ [Event.waited429 b]
        ∧ (attempt reg route ep hdrs method files hasFiles isForm idx r).events.all
            (fun e => !e.isRegOrBlock) = true) := by
  constructor
  · intro ra sc hreg hra hpf hsc
    have hA := attempt_new_block_eq reg route ep hdrs method files hasFiles isForm idx r
      b ra sc h429 hb hreg hra hpf hsc
    exact ⟨by rw [hA], by rw [hA], by rw [hA]; rfl, by rw [hA]; exact hreg⟩
  · intro blk hget
    have hA : attempt reg route ep hdrs method files hasFiles isForm idx r =
        ⟨AttemptOutcome.retryExisting b, reg,
          preEvents reg route ep hdrs method files hasFiles idx ++ [Event.waited429 b],
          []⟩ := by
      simp [attempt, h429, hb, hget]
    refine ⟨by rw [hA], by rw [hA], by rw [hA], ?_⟩
    rw [hA]
    show ((preEvents reg route ep hdrs method files hasFiles idx ++
      [Event.waited429 b]).all (fun e => !e.isRegOrBlock)) = true
    rw [List.all_append, preEvents_clean reg route ep hdrs method files hasFiles idx]
    rfl

theorem c3_429_bucket_blocker_witness :
    (attempt [] { path := "/a" } "https://d/a" [] "GET" [] false false 0
        { status := 429, headers := [("X-RateLimit-Bucket", "abc"),
          ("X-RateLimit-Reset-After", "0.05"), ("X-RateLimit-Scope", "user")] }).outcome =
      AttemptOutcome.retryNewBlock "abc" "0.05" ("user" == "global") :=
  ((c3_429_bucket_blocker [] { path := "/a" } "https://d/a" [] "GET" [] false false 0
      { status := 429, headers := [("X-RateLimit-Bucket", "abc"),
        ("X-RateLimit-Reset-After", "0.05"), ("X-RateLimit-Scope", "user")] }
      "abc" rfl rfl).1 "0.05" "user" rfl rfl (by decide) rfl).1

theorem attempt_nodup (reg : Registry) (route : Route) (ep : String)
    (hdrs : PyDict String) (method : String) (files : List File)
    (hasFiles isForm : Bool) (idx : Nat) (r : Response)
    (h : keysNodup reg) :
    keysNodup (attempt reg route ep hdrs method files hasFiles isForm idx r).reg
    ∧ ∀ s ∈ (attempt reg route ep hdrs method files hasFiles isForm idx r).snaps,
        keysNodup s := by
  unfold attempt
  repeat' split
  all_goals
    first
      | exact ⟨h, by simp⟩
      | (refine ⟨keysNodup_dictSet _ _ _ h, ?_⟩
         intro s hs
         simp only [List.mem_singleton] at hs
         subst hs
         exact keysNodup_dictSet _ _ _ h)
      | (refine ⟨keysNodup_dictDel _ _ (keysNodup_dictSet _ _ _ (keysNodup_dictSet _ _ _ h)),
           ?_⟩
         intro s hs
         simp only [List.mem_cons, List.mem_singleton, List.not_mem_nil, or_false] at hs
         rcases hs with rfl | rfl | rfl
         · exact keysNodup_dictSet _ _ _ h
         · exact keysNodup_dictSet _ _ _ (keysNodup_dictSet _ _ _ h)
         · exact keysNodup_dictDel _ _ (keysNodup_dictSet _ _ _ (keysNodup_dictSet _ _ _ h)))

theorem runLoop_nodup (responses : Nat → Response) (route : Route) (ep : String)
    (hdrs : PyDict String) (method : String) (files : List File)
    (hasFiles isForm : Bool) (fuel idx : Nat) (reg : Registry)
    (h : keysNodup reg) :
    keysNodup (runLoop responses route ep hdrs method files hasFiles isForm
        fuel idx reg).reg
    ∧ ∀ s ∈ (runLoop responses route ep hdrs method files hasFiles isForm
        fuel idx reg).snaps, keysNodup s := by
  induction fuel generalizing idx reg with
  | zero => exact ⟨h, by simp [runLoop]⟩
  | succ n ih =>
    have ha := attempt_nodup reg route ep hdrs method files hasFiles isForm idx
      (responses idx) h
    simp only [runLoop]
    split <;>
      first
        | exact ⟨ha.1, ha.2⟩
        | (have hr := ih (idx + 1) _ ha.1
           refine ⟨hr.1, ?_⟩
           intro s hs
           rw [List.mem_append] at hs
           rcases hs with hs | hs
           · exact ha.2 s hs
           · exact hr.2 s hs)

/-- Inversion for the registry effect of a completed block: whenever an
attempt ends in the retry of line 126 (a fresh Blocker was registered,
blocked and deregistered), the bucket is absent from the resulting
registry. -/
theorem attempt_newBlock_reg_none (reg : Registry) (route : Route) (ep : String)
    (hdrs : PyDict String) (method : String) (files : List File)
    (hasFiles isForm : Bool) (idx : Nat) (r : Response) (b ra : String) (g : Bool)
    (hout : (attempt reg route ep hdrs method files hasFiles isForm idx r).outcome =
      AttemptOutcome.retryNewBlock b ra g) :
    dictLookup (attempt reg route ep hdrs method files hasFiles isForm idx r).reg b =
      none := by
  by_cases h429 : r.status = 429
  · cases hb : dictLookup r.headers "X-RateLimit-Bucket" with
    | none => simp [attempt, h429, hb] at hout
    | some bucket =>
      cases hreg : dictLookup reg bucket with
      | some blk => simp [attempt, h429, hb, hreg] at hout
      | none =>
        cases hra : dictLookup r.headers "X-RateLimit-Reset-After" with
        | none => simp [attempt, h429, hb, hreg, hra] at hout
        | some ra' =>
          by_cases hpf : pyFloatAccepts ra' = true
          · cases hsc : dictLookup r.headers "X-RateLimit-Scope" with
            | none => simp [attempt, h429, hb, hreg, hra, hpf, hsc] at hout
            | some sc =>
              have hA := attempt_new_block_eq reg route ep hdrs method files hasFiles
                isForm idx r bucket ra' sc h429 hb hreg hra hpf hsc
              rw [hA] at hout
              simp only [AttemptOutcome.retryNewBlock.injEq] at hout
              rw [hA]
              rw [← hout.1]
              exact hreg
          · simp [attempt, h429, hb, hreg, hra, hpf] at hout
  · exfalso
    unfold attempt at hout
    rw [if_neg h429] at hout
    repeat' split at hout
    all_goals simp at hout

/-- C2: the blocker registry holds at most one Blocker per bucket id in
every state a `request` call passes through (keys of the `_blockers`
dict stay pairwise distinct in the entry state and every snapshot taken
after a registry mutation), and once an attempt's block completes (the
retry of line 126, after `del self._blockers[bucket]`), the registry no
longer contains an entry for that bucket id. -/
theorem c2_registry_invariant (st : HTTPClientState) (method : String) (route : Route)
    (data : Option (PyDict Json)) (files : Option (List File)) (reason : Option String)
    (responses : Nat → Response)
    (reg : Registry) (route2 : Route) (ep : String) (hdrs : PyDict String)
    (method2 : String) (files2 : List File) (hasFiles2 isForm2 : Bool) (idx2 : Nat)
    (r2 : Response) (b ra : String) (g : Bool)
    (hnd : keysNodup st.blockers)
    (hout : (attempt reg route2 ep hdrs method2 files2 hasFiles2 isForm2 idx2 r2).outcome =
      AttemptOutcome.retryNewBlock b ra g) :
    (∀ s ∈ (runRequest st method route data files reason responses).snaps, keysNodup s)
    ∧ dictLookup (attempt reg route2 ep hdrs method2 files2 hasFiles2 isForm2
        idx2 r2).reg b = none := by
  constructor
  · intro s hs
    simp only [runRequest] at hs
    split at hs
    · simp at hs
    · simp at hs
      rcases hs with rfl | hs
      · exact hnd
      · exact (runLoop_nodup responses route (route.merge st.url) _ method
          (files.getD []) (truthyFiles files) (truthyFiles files)
          st.maxRetries 0 st.blockers hnd).2 s hs
  · exact attempt_newBlock_reg_none reg route2 ep hdrs method2 files2 hasFiles2 isForm2
      idx2 r2 b ra g hout

theorem c2_registry_invariant_witness :
    (keysNodup ([] : Registry)
      ∧ (attempt [] { path := "/a" } "https://d/a" [] "GET" [] false false 0
          { status := 429, headers := [("X-RateLimit-Bucket", "abc"),
            ("X-RateLimit-Reset-After", "0.05"), ("X-RateLimit-Scope", "global")] }).outcome =
        AttemptOutcome.retryNewBlock "abc" "0.05" true)
    ∧ ((∀ s ∈ (runRequest (initClient "t" 10 2) "GET" { path := "/u" } none none none
          (fun _ => { status := 200 })).snaps, keysNodup s)
      ∧ dictLookup (attempt [] { path := "/a" } "https://d/a" [] "GET" [] false false 0
          { status := 429, headers := [("X-RateLimit-Bucket", "abc"),
            ("X-RateLimit-Reset-After", "0.05"), ("X-RateLimit-Scope", "global")] }).reg
          "abc" = none) :=
  ⟨⟨by decide, rfl⟩,
    c2_registry_invariant (initClient "t" 10 2) "GET" { path := "/u" } none none none
      (fun _ => { status := 200 }) [] { path := "/a" } "https://d/a" [] "GET" [] false false 0
      { status := 429, headers := [("X-RateLimit-Bucket", "abc"),
        ("X-RateLimit-Reset-After", "0.05"), ("X-RateLimit-Scope", "global")] }
      "abc" "0.05" true (by decide) rfl⟩

/-- C4: the mapping of lines 129-139 raises the typed errors for
401/403/404, but its else-branch does not raise an `HTTPException`
carrying the response body: before the bare `raise HTTPException`,
line 138 evaluates `data._fields` — for a JSON request the local `data`
is the serialized `str`, which has no `_fields`, so a 500 response with
a JSON body makes the call raise `AttributeError` instead. -/
theorem c4_error_mapping_bug :
    (runRequest (initClient "t" 10 5) "PATCH" { path := "/users/@me" }
        (some [("username", Json.str "u")]) none none
        (fun _ => { status := 500, headers := [("Content-Type", "application/json")],
                    jsonBody := some (Json.obj []), textBody := "err" })).result =
      Except.error PyError.attributeError
    ∧ (runRequest (initClient "t" 10 5) "GET" { path := "/users/@me" } none none none
        (fun _ => { status := 401 })).result = Except.error PyError.unauthorized
    ∧ (runRequest (initClient "t" 10 5) "GET" { path := "/users/@me" } none none none
        (fun _ => { status := 403 })).result = Except.error PyError.forbidden
    ∧ (runRequest (initClient "t" 10 5) "GET" { path := "/users/@me" } none none none
        (fun _ => { status := 404 })).result = Except.error PyError.notFound :=
  ⟨rfl, rfl, rfl, rfl⟩

/-- C5: a call that supplies files but no payload mapping reaches
`_prepare_form(files, None)` at line 66; `payload["attachments"] = ...`
(line 170) then raises `TypeError` before the `try` of line 71, so the
`finally` of lines 144-147 never runs and the file's content source is
closed zero times — not exactly once on every exit path. -/
theorem c5_file_close_bug :
    (runRequest (initClient "t" 10 5) "POST" { path := "/channels/9/messages" } none
        (some [{ filename := "a.png", description := "d", fp := 7 }]) none
        (fun _ => { status := 200 })).result = Except.error PyError.typeError
    ∧ ((runRequest (initClient "t" 10 5) "POST" { path := "/channels/9/messages" } none
        (some [{ filename := "a.png", description := "d", fp := 7 }]) none
        (fun _ => { status := 200 })).events.countP (isFileClosed 0)) = 0 :=
  ⟨rfl, rfl⟩

theorem runRequest_headers_const (st : HTTPClientState) (method : String) (route : Route)
    (data : Option (PyDict Json)) (files : Option (List File)) (reason : Option String)
    (responses : Nat → Response) :
    (runRequest st method route data files reason responses).state.headers = st.headers := by
  simp only [runRequest]
  split <;> rfl

theorem dictSet_all {α : Type} (d : PyDict α) (k : String) (v : α) (q : String × α → Bool)
    (hq : q (k, v) = true) (hd : d.all q = true) : (dictSet d k v).all q = true := by
  induction d with
  | nil => simp [dictSet, hq]
  | cons p rest ih =>
    simp only [List.all_cons, Bool.and_eq_true] at hd
    by_cases hp : p.1 = k
    · simp [dictSet, hp, hq, hd.2]
    · simp [dictSet, beq_iff_eq, hp, hd.1, ih hd.2]

theorem preEvents_noAudit (reg : Registry) (route : Route) (ep : String)
    (hdrs : PyDict String) (method : String) (files : List File)
    (hasFiles : Bool) (idx : Nat)
    (h : hdrs.all (fun p => !(p.1 == "X-Audit-Log-Reason")) = true) :
    (preEvents reg route ep hdrs method files hasFiles idx).all noAudit = true := by
  have h' : ∀ a b : String, (a, b) ∈ hdrs → ¬ a = "X-Audit-Log-Reason" := by
    intro a b hab
    have := List.all_eq_true.mp h (a, b) hab
    simpa using this
  unfold preEvents
  cases hasFiles <;>
    simp [List.all_append, List.all_eq_true, List.mem_map, noAudit] <;>
    exact h'

theorem attempt_events_noAudit (reg : Registry) (route : Route) (ep : String)
    (hdrs : PyDict String) (method : String) (files : List File)
    (hasFiles isForm : Bool) (idx : Nat) (r : Response)
    (h : hdrs.all (fun p => !(p.1 == "X-Audit-Log-Reason")) = true) :
    (attempt reg route ep hdrs method files hasFiles isForm idx r).events.all
      noAudit = true := by
  have hpre := preEvents_noAudit reg route ep hdrs method files hasFiles idx h
  unfold attempt
  repeat' split
  all_goals
    first
      | exact hpre
      | (rw [List.all_append, hpre]; rfl)

theorem runLoop_events_noAudit (responses : Nat → Response) (route : Route) (ep : String)
    (hdrs : PyDict String) (method : String) (files : List File)
    (hasFiles isForm : Bool) (fuel idx : Nat) (reg : Registry)
    (h : hdrs.all (fun p => !(p.1 == "X-Audit-Log-Reason")) = true) :
    (runLoop responses route ep hdrs method files hasFiles isForm fuel idx reg).events.all
      noAudit = true := by
  induction fuel generalizing idx reg with
  | zero => rfl
  | succ n ih =>
    have ha := attempt_events_noAudit reg route ep hdrs method files hasFiles isForm idx
      (responses idx) h
    simp only [runLoop]
    split <;>
      first
        | exact ha
        | (rw [List.all_append, ha, ih (idx + 1) _]; rfl)

theorem runRequest_events_noAudit (st : HTTPClientState) (method : String) (route : Route)
    (data : Option (PyDict Json)) (files : Option (List File)) (responses : Nat → Response)
    (h : st.headers.all (fun p => !(p.1 == "X-Audit-Log-Reason")) = true) :
    (runRequest st method route data files none responses).events.all noAudit = true := by
  have hb : (buildHeaders st.headers none (!truthyFiles files && truthyData data)).all
      (fun p => !(p.1 == "X-Audit-Log-Reason")) = true := by
    cases hjc : (!truthyFiles files && truthyData data) <;>
      simp only [buildHeaders, if_true, if_false, Bool.false_eq_true] <;>
      first
        | exact h
        | exact dictSet_all st.headers "Content-Type" "application/json" _ rfl h
  simp only [runRequest]
  split
  · rfl
  · rw [List.all_append, runLoop_events_noAudit _ _ _ _ _ _ _ _ _ _ _ hb]
    split <;> simp [noAudit, List.all_eq_true, List.mem_map]

/-- C10: every call assembles its outgoing headers from a copy of the
client's base header dict (line 61), so the stored base headers — built
once from `Authorization` and `User-Agent` — are never mutated by a
request, and the `X-Audit-Log-Reason` header added for a call that
passes `reason` never appears on the network calls of a later call made
without a reason. -/
theorem c10_base_headers_isolated (token : String) (version mr : Nat)
    (method1 method2 : String) (route1 route2 : Route)
    (d1 d2 : Option (PyDict Json)) (fs1 fs2 : Option (List File)) (s : String)
    (resp1 resp2 : Nat → Response) :
    (runRequest (initClient token version mr) method1 route1 d1 fs1 (some s)
        resp1).state.headers = (initClient token version mr).headers
    ∧ (runRequest (runRequest (initClient token version mr) method1 route1 d1 fs1 (some s)
        resp1).state method2 route2 d2 fs2 none resp2).state.headers =
      (initClient token version mr).headers
    ∧ (runRequest (runRequest (initClient token version mr) method1 route1 d1 fs1 (some s)
        resp1).state method2 route2 d2 fs2 none resp2).events.all noAudit = true := by
  have h1 := runRequest_headers_const (initClient token version mr) method1 route1 d1 fs1
    (some s) resp1
  refine ⟨h1, ?_, ?_⟩
  · rw [runRequest_headers_const, h1]
  · apply runRequest_events_noAudit
    rw [h1]
    rfl

end PycordHttp
